import Mathlib

set_option linter.unusedVariables false

/-!
Verification of the AnorakFPS coaching-site backend (src/main.py, src/schemas.py).

The backend stores JSON-like documents in named collections of a document
store, seeds default content at startup, and serves four read endpoints and
one write endpoint.  We embed the documents as association lists of
string-keyed values, the store as an association list of collections, and
each handler as a pure function of the store (with an explicit error
injection point for store failures, since every store call may raise).
-/

/-- JSON-like document field values (the document store is schema-flexible). -/
inductive Val where
  | null
  | str (s : String)
  | int (n : Int)
  | bool (b : Bool)
  | list (items : List Val)
  | dict (fields : List (String × Val))

/-- A stored document: an ordered association list of field name to value. -/
abbrev Doc := List (String × Val)

/-- The document store: an association list of collection name to contents. -/
abbrev Store := List (String × List Doc)

/-- First binding of a collection name in the store, if any. -/
def lookupColl : Store → String → Option (List Doc)
  | [], _ => none
  | kv :: rest, name => if kv.1 = name then some kv.2 else lookupColl rest name

/-- Contents of a collection; a collection that does not exist is empty
(MongoDB reads of a missing collection return nothing). -/
def getColl (s : Store) (name : String) : List Doc :=
  (lookupColl s name).getD []

/-- Replace the first binding of `name` (or append a new collection). -/
def setColl : Store → String → List Doc → Store
  | [], name, docs => [(name, docs)]
  | kv :: rest, name, docs =>
      if kv.1 = name then (name, docs) :: rest else kv :: setColl rest name docs

/-- Modelled from the spec: the Document Store Gateway's `create` operation
(`database.create_document`, imported by main.py but whose module is not in
the repository snapshot).  Spec section 4.1: `create(collection, record)`
appends the validated record to the named collection. -/
def create_document (s : Store) (coll : String) (doc : Doc) : Store :=
  setColl s coll (getColl s coll ++ [doc])

/-- Modelled from the spec: the Document Store Gateway's `list` operation
(`database.get_documents`).  Spec section 4.1: `list(collection, limit?)`
returns the ordered contents, an empty sequence (not an error) when the
collection does not exist or is empty; `limit` truncates the result. -/
def get_documents (s : Store) (coll : String) (limit : Option Nat) : List Doc :=
  match limit with
  | some n => (getColl s coll).take n
  | none => getColl s coll

/-- Modelled from the spec: the store's collection-name listing used by the
seed emptiness check (`db.list_collection_names()` in main.py). -/
def list_collection_names (s : Store) : List String :=
  s.map Prod.fst

/-- Modelled from the spec: `db[name].count_documents({})` — the number of
documents in a collection (0 when the collection does not exist). -/
def count_documents (s : Store) (name : String) : Nat :=
  (getColl s name).length

/-- The emptiness test ensure_seed_data applies to each seedable collection:
`name not in db.list_collection_names() or db[name].count_documents({}) == 0`. -/
def needsSeed (s : Store) (name : String) : Bool :=
  !(decide (name ∈ list_collection_names s)) || (count_documents s name == 0)

/-- The CoachProfile document seeded by ensure_seed_data (main.py), with the
fields in the order schemas.CoachProfile declares them. -/
def profileSeedDoc : Doc :=
  [("name", Val.str "Anorak"),
   ("headline", Val.str "Apex Legends Pro Coach • Ex-Pro & Former Predator"),
   ("bio", Val.str "I’m a former pro and multi-time Predator who has run 3,000+ 1:1 coaching sessions. I help you climb fast with fundamentals that stick: rotations, comms, fights, and winning habits."),
   ("years_experience", Val.int 6),
   ("sessions_coached", Val.int 3000),
   ("highest_rank", Val.str "Apex Predator"),
   ("specialties", Val.list [Val.str "IGL & Rotations", Val.str "Team Comms",
      Val.str "Fighting Fundamentals", Val.str "End-Game Clutch"]),
   ("socials", Val.dict [("twitter", Val.str "https://twitter.com/AnorakFPS"),
      ("youtube", Val.str "https://youtube.com/@AnorakFPS"),
      ("twitch", Val.str "https://twitch.tv/AnorakFPS"),
      ("website", Val.str "https://anorakfps.com")]),
   ("avatar_url", Val.str "/anorak-avatar.png"),
   ("hero_image_url", Val.str "/anorak-hero.jpg")]

/-- The three CoachingPackage documents seeded by ensure_seed_data, in the
order main.py inserts them. -/
def packageSeedDocs : List Doc :=
  [[("title", Val.str "VOD Review + Action Plan"),
    ("description", Val.str "45-min VOD breakdown with a ranked-ready improvement plan."),
    ("duration_minutes", Val.int 45),
    ("price_usd", Val.int 39),
    ("features", Val.list [Val.str "Personalized improvement goals",
       Val.str "Macro + micro mistakes highlighted",
       Val.str "Drills you can apply instantly"]),
    ("popular", Val.bool false)],
   [("title", Val.str "Live 1:1 Coaching Session"),
    ("description", Val.str "90-min live session (share screen or co-queue) with structured skill reps."),
    ("duration_minutes", Val.int 90),
    ("price_usd", Val.int 89),
    ("features", Val.list [Val.str "Warm-up & aim routine",
       Val.str "Fight reviews between games",
       Val.str "Rotations & end-game decision making"]),
    ("popular", Val.bool true)],
   [("title", Val.str "Climb Pack (3 Sessions)"),
    ("description", Val.str "Three 90-min sessions focused on rapid rank growth."),
    ("duration_minutes", Val.int 270),
    ("price_usd", Val.int 239),
    ("features", Val.list [Val.str "Structured progression plan",
       Val.str "VODs + post-session notes",
       Val.str "Priority scheduling"]),
    ("popular", Val.bool false)]]

/-- The three Testimonial documents seeded by ensure_seed_data, in the order
main.py inserts them (only the first carries the rank fields). -/
def testimonialSeedDocs : List Doc :=
  [[("name", Val.str "Kade"),
    ("quote", Val.str "Went from Gold to Diamond in 2 weeks. Rotations finally make sense."),
    ("rating", Val.int 5),
    ("platform", Val.str "Discord"),
    ("game_rank_before", Val.str "Gold"),
    ("game_rank_after", Val.str "Diamond")],
   [("name", Val.str "Mila"),
    ("quote", Val.str "The fight reviews were insane. I win more 3v3s now."),
    ("rating", Val.int 5),
    ("platform", Val.str "Discord")],
   [("name", Val.str "Yuki"),
    ("quote", Val.str "Clarity on my role as IGL was a game changer for our trio."),
    ("rating", Val.int 5),
    ("platform", Val.str "Twitter")]]

/-- The first phase of main.py ensure_seed_data: insert the canned profile
document when the profile collection is missing or empty. -/
def seedProfilePhase (s : Store) : Store :=
  if needsSeed s "coachprofile"
  then create_document s "coachprofile" profileSeedDoc
  else s

/-- One for-loop phase of main.py ensure_seed_data: when the collection is
missing or empty, insert each of its canned documents in order. -/
def seedManyPhase (n : String) (docs : List Doc) (s : Store) : Store :=
  if needsSeed s n
  then docs.foldl (fun st p => create_document st n p) s
  else s

/-- main.py ensure_seed_data on an available store: for each of the three
seedable collections in turn (profile, then packages, then testimonials),
if it is missing or empty, insert its canned documents in order. -/
def ensure_seed_data (s : Store) : Store :=
  seedManyPhase "testimonial" testimonialSeedDocs
    (seedManyPhase "coachingpackage" packageSeedDocs (seedProfilePhase s))

/-- main.py ensure_seed_data including its first guard: when the store handle
is `None` (`db is None`) it returns immediately without touching anything. -/
def ensure_seed_data_db (db : Option Store) : Option Store :=
  match db with
  | none => none
  | some s => some (ensure_seed_data s)

/-- Outcome of one Document Store Gateway call: the data, or the message of
the exception the store raised (StoreUnavailable / ReadError / WriteError). -/
inductive StoreResult (α : Type) where
  | ok (val : α)
  | err (msg : String)

/-- A handler outcome: a success body, or an HTTPException with a status
code and a detail string. -/
inductive ApiResult (α : Type) where
  | ok (body : α)
  | httpError (status : Nat) (detail : String)

/-- main.py ProfileResponse. -/
structure ProfileResponse where
  profile : Doc

/-- main.py PackagesResponse. -/
structure PackagesResponse where
  packages : List Doc

/-- main.py TestimonialsResponse. -/
structure TestimonialsResponse where
  testimonials : List Doc

/-- main.py BookingResponse. -/
structure BookingResponse where
  success : Bool
  message : String
deriving Repr, DecidableEq

/-- `item.pop("_id", None)`: drop the storage-internal identifier field. -/
def popId (d : Doc) : Doc :=
  d.filter (fun kv => kv.1 != "_id")

/-- `str()` of a FastAPI/Starlette HTTPException: `"<status>: <detail>"`. -/
def strHTTPException (status : Nat) (detail : String) : String :=
  toString status ++ ": " ++ detail

/-- main.py get_profile, as a function of the outcome of its store read
(`get_documents("coachprofile", limit=1)`).  NOTE the faithful modelling of
its exception handling: the `raise HTTPException(404, ...)` for an empty
result sits inside the `try` block whose `except Exception as e` re-raises
`HTTPException(500, str(e))`; since fastapi.HTTPException subclasses
Exception, the 404 is caught there and the client receives a 500. -/
def get_profile (res : StoreResult (List Doc)) : ApiResult ProfileResponse :=
  match res with
  | .err e => .httpError 500 e
  | .ok items =>
      match items with
      | [] => .httpError 500 (strHTTPException 404 "Profile not found")
      | item :: _ => .ok ⟨popId item⟩

/-- main.py get_packages, as a function of the outcome of its store read
(`get_documents("coachingpackage")`). -/
def get_packages (res : StoreResult (List Doc)) : ApiResult PackagesResponse :=
  match res with
  | .err e => .httpError 500 e
  | .ok items => .ok ⟨items.map popId⟩

/-- main.py get_testimonials, as a function of the outcome of its store read
(`get_documents("testimonial")`). -/
def get_testimonials (res : StoreResult (List Doc)) : ApiResult TestimonialsResponse :=
  match res with
  | .err e => .httpError 500 e
  | .ok items => .ok ⟨items.map popId⟩

/-- GET /api/profile against a live store whose read succeeds. -/
def get_profile_endpoint (s : Store) : ApiResult ProfileResponse :=
  get_profile (StoreResult.ok (get_documents s "coachprofile" (some 1)))

/-- GET /api/packages against a live store whose read succeeds. -/
def get_packages_endpoint (s : Store) : ApiResult PackagesResponse :=
  get_packages (StoreResult.ok (get_documents s "coachingpackage" none))

/-- GET /api/testimonials against a live store whose read succeeds. -/
def get_testimonials_endpoint (s : Store) : ApiResult TestimonialsResponse :=
  get_testimonials (StoreResult.ok (get_documents s "testimonial" none))

/-- schemas.BookingRequest: the validated booking record. -/
structure BookingRequest where
  name : String
  email : String
  discord : Option String
  platform : Option String
  timezone : Option String
  package_title : Option String
  goals : Option String
  preferred_times : Option String
deriving Repr, DecidableEq

/-- First value bound to a field name in a JSON payload object. -/
def lookupField : Doc → String → Option Val
  | [], _ => none
  | kv :: rest, key => if kv.1 = key then some kv.2 else lookupField rest key

/-- The field's string value, if present with a string value. -/
def getStrField (payload : Doc) (key : String) : Option String :=
  match lookupField payload key with
  | some (Val.str s) => some s
  | _ => none

/-- Pydantic validation of a required `str` field: present and a string, or
a validation error. -/
def reqStr (payload : Doc) (key : String) : Except String String :=
  match getStrField payload key with
  | some s => Except.ok s
  | none => Except.error ("field required or not a string: " ++ key)

/-- Pydantic validation of an `Optional[str]` field: absent or null becomes
`none`, a string is kept, anything else is a validation error. -/
def optStr (payload : Doc) (key : String) : Except String (Option String) :=
  match lookupField payload key with
  | none => Except.ok none
  | some Val.null => Except.ok none
  | some (Val.str s) => Except.ok (some s)
  | some _ => Except.error ("not a string: " ++ key)

/-- Pydantic validation of a JSON payload against schemas.BookingRequest:
`name : str` and `email : EmailStr` are required, the six remaining fields
are `Optional[str]`, and unrecognized fields are ignored (pydantic's
default extra-field policy).  The syntactic email check itself is performed
by the third-party email-validator library, so it is taken as the abstract
predicate `emailOk`. -/
def validate_booking (emailOk : String → Bool) (payload : Doc) :
    Except String BookingRequest := do
  let name ← reqStr payload "name"
  let email ← reqStr payload "email"
  if emailOk email then
    let discord ← optStr payload "discord"
    let platform ← optStr payload "platform"
    let timezone ← optStr payload "timezone"
    let package_title ← optStr payload "package_title"
    let goals ← optStr payload "goals"
    let preferred_times ← optStr payload "preferred_times"
    pure ⟨name, email, discord, platform, timezone, package_title, goals, preferred_times⟩
  else
    Except.error "value is not a valid email address"

/-- Modelled from the spec: a concrete syntactic email check (stand-in for
the third-party validator behind pydantic EmailStr, which is not repository
code), used only to instantiate `emailOk` in witnesses: one `@`, a
non-empty local part, and a domain containing a dot. -/
def simpleEmailCheck (s : String) : Bool :=
  (s.toList.count '@' == 1) &&
  !(s.toList.takeWhile (fun c => c != '@')).isEmpty &&
  !((s.toList.dropWhile (fun c => c != '@')).drop 1).isEmpty &&
  ((s.toList.dropWhile (fun c => c != '@')).drop 1).contains '.'

/-- The declared BookingRequest field names, in declaration order. -/
def bookingFieldNames : List String :=
  ["name", "email", "discord", "platform", "timezone",
   "package_title", "goals", "preferred_times"]

/-- Serialization of a validated BookingRequest for storage: exactly the
declared fields, absent optionals stored as null. -/
def bookingToDoc (r : BookingRequest) : Doc :=
  [("name", Val.str r.name),
   ("email", Val.str r.email),
   ("discord", (r.discord.map Val.str).getD Val.null),
   ("platform", (r.platform.map Val.str).getD Val.null),
   ("timezone", (r.timezone.map Val.str).getD Val.null),
   ("package_title", (r.package_title.map Val.str).getD Val.null),
   ("goals", (r.goals.map Val.str).getD Val.null),
   ("preferred_times", (r.preferred_times.map Val.str).getD Val.null)]

/-- The fixed acknowledgement string returned by main.py create_booking. -/
def bookingAckMessage : String :=
  "Booking request received. I’ll reach out via email/Discord."

/-- main.py create_booking, as a function of the validated request and of
the outcome of its store write: a store exception becomes a 500 carrying
its message, otherwise a fixed success body. -/
def create_booking (req : BookingRequest) (w : StoreResult Store) :
    ApiResult BookingResponse :=
  match w with
  | .err e => .httpError 500 e
  | .ok _ => .ok ⟨true, bookingAckMessage⟩

/-- POST /api/bookings end to end on a live store whose write succeeds:
FastAPI validates the JSON payload against schemas.BookingRequest before
the handler runs, answering 422 (and touching no store state) on failure;
on success the handler persists the record and acknowledges.  Returns the
response together with the resulting store. -/
def create_booking_endpoint (emailOk : String → Bool) (payload : Doc) (s : Store) :
    ApiResult BookingResponse × Store :=
  match validate_booking emailOk payload with
  | .error msg => (ApiResult.httpError 422 msg, s)
  | .ok req =>
      let s2 := create_document s "bookingrequest" (bookingToDoc req)
      (create_booking req (StoreResult.ok s2), s2)

/-- State of a seeding run against the fallible gateway: the store so far
and the index of the next write operation. -/
structure SeedRun where
  store : Store
  nextOp : Nat

/-- Modelled from the spec: the gateway's `create` on a live but fallible
store (spec section 4.1: any write may fail with WriteError).  `failAt`
injects a failure at one write-operation index; a failed write raises after
changing nothing, and writes already performed are not rolled back (spec
section 4.2: seeding is not transactional). -/
def create_document_fallible (failAt : Option Nat) (r : SeedRun)
    (coll : String) (doc : Doc) : Except (String × SeedRun) SeedRun :=
  if failAt = some r.nextOp then
    Except.error ("WriteError", { r with nextOp := r.nextOp + 1 })
  else
    Except.ok { store := create_document r.store coll doc, nextOp := r.nextOp + 1 }

/-- Insert a list of seed documents in order through the fallible gateway;
the first failure aborts the rest of the loop (the Python `for` loop raises
out of ensure_seed_data). -/
def seedMany (failAt : Option Nat) (coll : String) :
    List Doc → SeedRun → Except (String × SeedRun) SeedRun
  | [], r => Except.ok r
  | d :: rest, r => do
      let r2 ← create_document_fallible failAt r coll d
      seedMany failAt coll rest r2

/-- The profile phase of ensure_seed_data against the fallible gateway. -/
def seedProfilePhaseFallible (failAt : Option Nat) (r : SeedRun) :
    Except (String × SeedRun) SeedRun :=
  if needsSeed r.store "coachprofile"
  then create_document_fallible failAt r "coachprofile" profileSeedDoc
  else Except.ok r

/-- One for-loop phase of ensure_seed_data against the fallible gateway. -/
def seedManyPhaseFallible (failAt : Option Nat) (n : String) (docs : List Doc)
    (r : SeedRun) : Except (String × SeedRun) SeedRun :=
  if needsSeed r.store n
  then seedMany failAt n docs r
  else Except.ok r

/-- main.py ensure_seed_data run against the fallible gateway: same three
check-then-insert phases as `ensure_seed_data`, but a store exception
escapes (carrying the partially seeded store alongside its message). -/
def ensure_seed_data_fallible (failAt : Option Nat) (s : Store) :
    Except (String × Store) Store :=
  match seedProfilePhaseFallible failAt ⟨s, 0⟩ >>= fun r1 =>
        seedManyPhaseFallible failAt "coachingpackage" packageSeedDocs r1 >>= fun r2 =>
        seedManyPhaseFallible failAt "testimonial" testimonialSeedDocs r2 with
  | Except.ok r => Except.ok r.store
  | Except.error (e, r) => Except.error (e, r.store)

/-- main.py startup_event: `try: ensure_seed_data() except Exception: pass`.
A `None` store handle makes ensure_seed_data return at once; any exception
during seeding is swallowed, the writes already performed remaining in
place.  The result is the store after startup (`none` = unavailable); the
function is total, so startup never propagates an error. -/
def startup_event (failAt : Option Nat) (db : Option Store) : Option Store :=
  match db with
  | none => none
  | some s =>
      match ensure_seed_data_fallible failAt s with
      | Except.ok s2 => some s2
      | Except.error (_, s2) => some s2

/-! ### Store lemmas -/

/-- Looking up the collection just set finds exactly the new contents. -/
theorem lookupColl_setColl_self (s : Store) (n : String) (docs : List Doc) :
    lookupColl (setColl s n docs) n = some docs := by
  induction s with
  | nil => simp [setColl, lookupColl]
  | cons kv rest ih =>
      by_cases h : kv.1 = n
      · simp [setColl, h, lookupColl]
      · simp [setColl, h, lookupColl, ih]

/-- Setting one collection leaves every other collection's lookup alone. -/
theorem lookupColl_setColl_ne (s : Store) {m n : String} (h : m ≠ n)
    (docs : List Doc) : lookupColl (setColl s n docs) m = lookupColl s m := by
  have hnm : ¬ n = m := fun e => h e.symm
  induction s with
  | nil => simp [setColl, lookupColl, hnm]
  | cons kv rest ih =>
      by_cases hk : kv.1 = n
      · have hkm : ¬ kv.1 = m := hk ▸ hnm
        simp [setColl, hk, lookupColl, hnm, hkm]
      · by_cases hm : kv.1 = m
        · simp [setColl, hk, lookupColl, hm, h]
        · simp [setColl, hk, lookupColl, hm, ih]

/-- Inserting a document appends it to its collection's contents. -/
theorem getColl_create_self (s : Store) (n : String) (d : Doc) :
    getColl (create_document s n d) n = getColl s n ++ [d] := by
  simp [create_document, getColl, lookupColl_setColl_self]

/-- Inserting a document leaves every other collection unchanged. -/
theorem getColl_create_ne (s : Store) {m n : String} (h : m ≠ n) (d : Doc) :
    getColl (create_document s n d) m = getColl s m := by
  simp [create_document, getColl, lookupColl_setColl_ne s h]

/-- A collection name is listed exactly when its lookup succeeds. -/
theorem lookupColl_isSome_iff (s : Store) (n : String) :
    (lookupColl s n).isSome ↔ n ∈ list_collection_names s := by
  induction s with
  | nil => simp [lookupColl, list_collection_names]
  | cons kv rest ih =>
      by_cases h : kv.1 = n
      · simp [lookupColl, h, list_collection_names]
      · have hnk : ¬ n = kv.1 := fun e => h e.symm
        simp [lookupColl, h, list_collection_names, ih, hnk]

/-- The seed emptiness test fails exactly on a non-empty collection. -/
theorem needsSeed_eq_false_iff (s : Store) (n : String) :
    needsSeed s n = false ↔ getColl s n ≠ [] := by
  constructor
  · intro h hempty
    simp [needsSeed, count_documents, hempty] at h
  · intro h
    have hsome : (lookupColl s n).isSome := by
      cases hl : lookupColl s n with
      | none => exact absurd (by simp [getColl, hl]) h
      | some l => simp
    have hmem : n ∈ list_collection_names s := (lookupColl_isSome_iff s n).mp hsome
    have hlen : count_documents s n ≠ 0 := by
      simp only [count_documents]
      exact fun hlen => h (List.length_eq_zero.mp hlen)
    simp [needsSeed, hmem, hlen]

/-! ### Seeding lemmas -/

/-- Folding inserts over one collection appends all the documents there. -/
theorem getColl_foldl_create_self (docs : List Doc) (s : Store) (n : String) :
    getColl (docs.foldl (fun st p => create_document st n p) s) n
      = getColl s n ++ docs := by
  induction docs generalizing s with
  | nil => simp
  | cons d rest ih => simp [List.foldl, ih, getColl_create_self]

/-- Folding inserts over one collection leaves the others unchanged. -/
theorem getColl_foldl_create_ne (docs : List Doc) (s : Store) {m n : String}
    (h : m ≠ n) :
    getColl (docs.foldl (fun st p => create_document st n p) s) m
      = getColl s m := by
  induction docs generalizing s with
  | nil => rfl
  | cons d rest ih =>
      simpa [List.foldl, ih] using
        congrArg id (ih (create_document s n d)) |>.trans (getColl_create_ne s h d)

/-- After the profile phase, the profile collection is non-empty. -/
theorem seedProfilePhase_self_ne (s : Store) :
    getColl (seedProfilePhase s) "coachprofile" ≠ [] := by
  by_cases h : needsSeed s "coachprofile" = true
  · simp [seedProfilePhase, h, getColl_create_self]
  · simp only [Bool.not_eq_true] at h
    simp [seedProfilePhase, h, (needsSeed_eq_false_iff s "coachprofile").mp h]

/-- The profile phase leaves the other collections unchanged. -/
theorem seedProfilePhase_other (s : Store) {m : String} (h : m ≠ "coachprofile") :
    getColl (seedProfilePhase s) m = getColl s m := by
  by_cases hc : needsSeed s "coachprofile" = true
  · simp [seedProfilePhase, hc, getColl_create_ne s h]
  · simp only [Bool.not_eq_true] at hc
    simp [seedProfilePhase, hc]

/-- The profile phase does nothing on a non-empty profile collection. -/
theorem seedProfilePhase_noop (s : Store)
    (h : getColl s "coachprofile" ≠ []) : seedProfilePhase s = s := by
  simp [seedProfilePhase, (needsSeed_eq_false_iff s "coachprofile").mpr h]

/-- After a for-loop phase with at least one document, its collection is
non-empty. -/
theorem seedManyPhase_self_ne (n : String) (docs : List Doc) (s : Store)
    (hd : docs ≠ []) : getColl (seedManyPhase n docs s) n ≠ [] := by
  by_cases h : needsSeed s n = true
  · simp [seedManyPhase, h, getColl_foldl_create_self, hd]
  · simp only [Bool.not_eq_true] at h
    simp [seedManyPhase, h, (needsSeed_eq_false_iff s n).mp h]

/-- A for-loop phase leaves the other collections unchanged. -/
theorem seedManyPhase_other (n : String) (docs : List Doc) (s : Store)
    {m : String} (h : m ≠ n) :
    getColl (seedManyPhase n docs s) m = getColl s m := by
  by_cases hc : needsSeed s n = true
  · simp [seedManyPhase, hc, getColl_foldl_create_ne docs s h]
  · simp only [Bool.not_eq_true] at hc
    simp [seedManyPhase, hc]

/-- A for-loop phase does nothing on a non-empty collection. -/
theorem seedManyPhase_noop (n : String) (docs : List Doc) (s : Store)
    (h : getColl s n ≠ []) : seedManyPhase n docs s = s := by
  simp [seedManyPhase, (needsSeed_eq_false_iff s n).mpr h]

/-- After seeding, all three seedable collections are non-empty. -/
theorem ensure_seed_data_nonempty (s : Store) :
    getColl (ensure_seed_data s) "coachprofile" ≠ [] ∧
    getColl (ensure_seed_data s) "coachingpackage" ≠ [] ∧
    getColl (ensure_seed_data s) "testimonial" ≠ [] := by
  unfold ensure_seed_data
  refine ⟨?_, ?_, ?_⟩
  · rw [seedManyPhase_other _ _ _ (by decide), seedManyPhase_other _ _ _ (by decide)]
    exact seedProfilePhase_self_ne s
  · rw [seedManyPhase_other _ _ _ (by decide)]
    exact seedManyPhase_self_ne _ _ _ (by simp [packageSeedDocs])
  · exact seedManyPhase_self_ne _ _ _ (by simp [testimonialSeedDocs])

/-- Seeding a store whose three seedable collections are already non-empty
changes nothing. -/
theorem ensure_seed_data_noop (s : Store)
    (h1 : getColl s "coachprofile" ≠ [])
    (h2 : getColl s "coachingpackage" ≠ [])
    (h3 : getColl s "testimonial" ≠ []) :
    ensure_seed_data s = s := by
  unfold ensure_seed_data
  rw [seedProfilePhase_noop s h1, seedManyPhase_noop _ _ _ h2,
      seedManyPhase_noop _ _ _ h3]

/-! ### Handler and validation lemmas -/

/-- Binding a successful Except value applies the continuation. -/
theorem except_bind_ok {ε α β : Type} (a : α) (f : α → Except ε β) :
    (Except.ok a : Except ε α) >>= f = f a := rfl

/-- Binding a failed Except value propagates the error. -/
theorem except_bind_error {ε α β : Type} (e : ε) (f : α → Except ε β) :
    (Except.error e : Except ε α) >>= f = Except.error e := rfl

/-- Mapping over a successful Except value applies the function. -/
theorem except_map_ok {ε α β : Type} (a : α) (f : α → β) :
    f <$> (Except.ok a : Except ε α) = Except.ok (f a) := rfl

/-- Mapping over a failed Except value propagates the error. -/
theorem except_map_error {ε α β : Type} (e : ε) (f : α → β) :
    f <$> (Except.error e : Except ε α) = Except.error e := rfl

/-- After popping the internal identifier, no `_id` field remains. -/
theorem lookupField_popId (d : Doc) : lookupField (popId d) "_id" = none := by
  induction d with
  | nil => rfl
  | cons kv rest ih =>
      simp only [popId] at ih ⊢
      by_cases h : kv.1 = "_id"
      · simpa [List.filter_cons, h] using ih
      · simpa [List.filter_cons, h, lookupField] using ih

/-- A payload field other than the looked-up one does not affect lookup. -/
theorem lookupField_cons_ne (p : Doc) (k : String) (v : Val) {key : String}
    (h : k ≠ key) : lookupField ((k, v) :: p) key = lookupField p key := by
  simp [lookupField, h]

/-- A payload whose name field is absent (or not a string), whose email
field is absent (or not a string), or whose email fails the syntactic
check, fails BookingRequest validation. -/
theorem validate_booking_error (emailOk : String → Bool) (payload : Doc)
    (h : getStrField payload "name" = none ∨ getStrField payload "email" = none ∨
         ∀ e, getStrField payload "email" = some e → emailOk e = false) :
    ∃ msg, validate_booking emailOk payload = Except.error msg := by
  rcases h with h1 | h2 | h3
  · exact ⟨"field required or not a string: name",
      by simp [validate_booking, reqStr, h1, except_bind_error]⟩
  · cases hn : getStrField payload "name" with
    | none =>
        exact ⟨"field required or not a string: name",
          by simp [validate_booking, reqStr, hn, except_bind_error]⟩
    | some a =>
        exact ⟨"field required or not a string: email",
          by simp [validate_booking, reqStr, hn, h2,
            except_bind_ok, except_bind_error]⟩
  · cases hn : getStrField payload "name" with
    | none =>
        exact ⟨"field required or not a string: name",
          by simp [validate_booking, reqStr, hn, except_bind_error]⟩
    | some a =>
        cases he : getStrField payload "email" with
        | none =>
            exact ⟨"field required or not a string: email",
              by simp [validate_booking, reqStr, hn, he,
                except_bind_ok, except_bind_error]⟩
        | some e =>
            exact ⟨"value is not a valid email address",
              by simp [validate_booking, reqStr, hn, he, h3 e he,
                except_bind_ok, except_bind_error]⟩

/-- A successfully validated booking is persisted by appending its
serialized record to the bookingrequest collection, and acknowledged with
the fixed message. -/
theorem create_booking_endpoint_ok (emailOk : String → Bool) (payload : Doc)
    (s : Store) (req : BookingRequest)
    (h : validate_booking emailOk payload = Except.ok req) :
    create_booking_endpoint emailOk payload s
      = (ApiResult.ok ⟨true, bookingAckMessage⟩,
         create_document s "bookingrequest" (bookingToDoc req)) := by
  simp [create_booking_endpoint, h, create_booking]

/-- With no injected failure, inserting seed documents through the fallible
gateway performs exactly the for-loop's inserts. -/
theorem seedMany_none (coll : String) (docs : List Doc) (r : SeedRun) :
    ∃ k, seedMany none coll docs r
      = Except.ok ⟨docs.foldl (fun st p => create_document st coll p) r.store, k⟩ := by
  induction docs generalizing r with
  | nil => exact ⟨r.nextOp, by simp [seedMany]⟩
  | cons d rest ih =>
      obtain ⟨k, hk⟩ := ih ⟨create_document r.store coll d, r.nextOp + 1⟩
      exact ⟨k, by simp [seedMany, create_document_fallible, except_bind_ok, hk]⟩

/-- With no injected failure, one check-then-loop phase of the fallible
seeding run performs exactly the corresponding pure phase. -/
theorem seedManyPhaseFallible_none (r : SeedRun) (n : String) (docs : List Doc) :
    ∃ k, seedManyPhaseFallible none n docs r
      = Except.ok (⟨seedManyPhase n docs r.store, k⟩ : SeedRun) := by
  by_cases h : needsSeed r.store n = true
  · obtain ⟨k, hk⟩ := seedMany_none n docs r
    exact ⟨k, by simp [seedManyPhaseFallible, h, hk, seedManyPhase]⟩
  · simp only [Bool.not_eq_true] at h
    exact ⟨r.nextOp, by simp [seedManyPhaseFallible, h, seedManyPhase]⟩

/-- With no injected failure, the profile phase of the fallible seeding run
performs exactly the pure profile phase. -/
theorem seedProfilePhaseFallible_none (s : Store) :
    ∃ k, seedProfilePhaseFallible none (⟨s, 0⟩ : SeedRun)
      = Except.ok (⟨seedProfilePhase s, k⟩ : SeedRun) := by
  by_cases h : needsSeed s "coachprofile" = true
  · exact ⟨1, by simp [seedProfilePhaseFallible, h, create_document_fallible,
      seedProfilePhase]⟩
  · simp only [Bool.not_eq_true] at h
    exact ⟨0, by simp [seedProfilePhaseFallible, h, seedProfilePhase]⟩

/-- With no injected failure, the fallible seeding run agrees with
ensure_seed_data. -/
theorem ensure_seed_data_fallible_none (s : Store) :
    ensure_seed_data_fallible none s = Except.ok (ensure_seed_data s) := by
  obtain ⟨k1, h1⟩ := seedProfilePhaseFallible_none s
  obtain ⟨k2, h2⟩ := seedManyPhaseFallible_none
    ⟨seedProfilePhase s, k1⟩ "coachingpackage" packageSeedDocs
  obtain ⟨k3, h3⟩ := seedManyPhaseFallible_none
    ⟨seedManyPhase "coachingpackage" packageSeedDocs (seedProfilePhase s), k2⟩
    "testimonial" testimonialSeedDocs
  dsimp only at h2 h3
  simp only [ensure_seed_data_fallible, ensure_seed_data, h1, except_bind_ok,
    h2, h3]

/-! ### Claim theorems -/

/-- Claim C1, actual code behaviour at the failing input: on a store with
an empty (or missing) profile collection, GET /api/profile answers 500
with detail "404: Profile not found" — the handler's explicit
HTTPException(404) is raised inside its own try block and caught by the
blanket `except Exception`, which re-raises it as a 500 — contradicting
the claimed NotFound/404 outcome. -/
theorem c1_empty_profile_collection_gives_500 :
    get_profile_endpoint ([] : Store)
      = ApiResult.httpError 500 "404: Profile not found" := rfl

/-- Claim C2: every payload that validates against the BookingRequest
schema is acknowledged with success=true and the fixed message, and its
serialized record is appended to (and hence retrievable from) the
bookingrequest collection. -/
theorem c2_create_booking_persists_and_acknowledges
    (emailOk : String → Bool) (payload : Doc) (s : Store) (req : BookingRequest)
    (h : validate_booking emailOk payload = Except.ok req) :
    (create_booking_endpoint emailOk payload s).1
        = ApiResult.ok ⟨true, bookingAckMessage⟩ ∧
    getColl (create_booking_endpoint emailOk payload s).2 "bookingrequest"
        = getColl s "bookingrequest" ++ [bookingToDoc req] ∧
    bookingToDoc req
        ∈ get_documents (create_booking_endpoint emailOk payload s).2 "bookingrequest" none := by
  rw [create_booking_endpoint_ok emailOk payload s req h]
  refine ⟨rfl, getColl_create_self s _ _, ?_⟩
  simp [get_documents, getColl_create_self]

/-- The payload of the spec's end-to-end scenario. -/
def jonPayload : Doc :=
  [("name", Val.str "Jon"), ("email", Val.str "jon@example.com")]

/-- The validated booking for jonPayload. -/
def jonBooking : BookingRequest :=
  ⟨"Jon", "jon@example.com", none, none, none, none, none, none⟩

/-- Witness for C2 at the spec's concrete scenario. -/
theorem c2_witness :
    validate_booking simpleEmailCheck jonPayload = Except.ok jonBooking ∧
    ((create_booking_endpoint simpleEmailCheck jonPayload ([] : Store)).1
        = ApiResult.ok ⟨true, bookingAckMessage⟩ ∧
     getColl (create_booking_endpoint simpleEmailCheck jonPayload ([] : Store)).2 "bookingrequest"
        = getColl ([] : Store) "bookingrequest" ++ [bookingToDoc jonBooking] ∧
     bookingToDoc jonBooking
        ∈ get_documents (create_booking_endpoint simpleEmailCheck jonPayload ([] : Store)).2 "bookingrequest" none) :=
  ⟨rfl, c2_create_booking_persists_and_acknowledges simpleEmailCheck jonPayload [] jonBooking rfl⟩

/-- Claim C3: a payload with a missing (or non-string) name or email, or an
email failing the syntactic check, is rejected with a 422 before any store
interaction: the returned store is exactly the input store. -/
theorem c3_create_booking_rejects_invalid
    (emailOk : String → Bool) (payload : Doc) (s : Store)
    (h : getStrField payload "name" = none ∨ getStrField payload "email" = none ∨
         ∀ e, getStrField payload "email" = some e → emailOk e = false) :
    ∃ msg, create_booking_endpoint emailOk payload s
      = (ApiResult.httpError 422 msg, s) := by
  obtain ⟨msg, hv⟩ := validate_booking_error emailOk payload h
  exact ⟨msg, by simp [create_booking_endpoint, hv]⟩

/-- A booking payload with no email field. -/
def noEmailPayload : Doc := [("name", Val.str "Jon")]

/-- Witness for C3: a payload missing its email is answered 422 and the
store (here already holding one booking) is untouched. -/
theorem c3_witness :
    getStrField noEmailPayload "email" = none ∧
    ∃ msg, create_booking_endpoint simpleEmailCheck noEmailPayload
        [("bookingrequest", [bookingToDoc jonBooking])]
      = (ApiResult.httpError 422 msg,
         [("bookingrequest", [bookingToDoc jonBooking])]) :=
  ⟨rfl, c3_create_booking_rejects_invalid simpleEmailCheck noEmailPayload
      [("bookingrequest", [bookingToDoc jonBooking])] (Or.inr (Or.inl rfl))⟩

/-- Claim C4: seeding a completely fresh store inserts exactly one profile
document named Anorak, exactly the three package documents (titles in
insertion order), and exactly the three testimonial documents (names Kade,
Mila, Yuki); GET /api/packages afterwards returns exactly those three
packages, titles in that order. -/
theorem c4_fresh_store_seeding :
    (getColl (ensure_seed_data ([] : Store)) "coachprofile").map
        (fun d => lookupField d "name") = [some (Val.str "Anorak")] ∧
    getColl (ensure_seed_data ([] : Store)) "coachingpackage" = packageSeedDocs ∧
    getColl (ensure_seed_data ([] : Store)) "testimonial" = testimonialSeedDocs ∧
    testimonialSeedDocs.map (fun d => lookupField d "name")
        = [some (Val.str "Kade"), some (Val.str "Mila"), some (Val.str "Yuki")] ∧
    get_packages_endpoint (ensure_seed_data ([] : Store))
        = ApiResult.ok ⟨packageSeedDocs⟩ ∧
    packageSeedDocs.map (fun d => lookupField d "title")
        = [some (Val.str "VOD Review + Action Plan"),
           some (Val.str "Live 1:1 Coaching Session"),
           some (Val.str "Climb Pack (3 Sessions)")] :=
  ⟨rfl, rfl, rfl, rfl, rfl, rfl⟩

/-- Claim C5: seeding is a no-op on a store whose three seedable
collections are already non-empty; consequently running the Seed
Initializer twice from any state equals running it once. -/
theorem c5_seed_idempotent :
    (∀ s : Store,
        getColl s "coachprofile" ≠ [] →
        getColl s "coachingpackage" ≠ [] →
        getColl s "testimonial" ≠ [] →
        ensure_seed_data s = s) ∧
    (∀ s : Store, ensure_seed_data (ensure_seed_data s) = ensure_seed_data s) := by
  constructor
  · exact ensure_seed_data_noop
  · intro s
    obtain ⟨h1, h2, h3⟩ := ensure_seed_data_nonempty s
    exact ensure_seed_data_noop _ h1 h2 h3

/-- Witness for C5 at the freshly seeded store. -/
theorem c5_witness :
    getColl (ensure_seed_data ([] : Store)) "coachprofile" ≠ [] ∧
    getColl (ensure_seed_data ([] : Store)) "coachingpackage" ≠ [] ∧
    getColl (ensure_seed_data ([] : Store)) "testimonial" ≠ [] ∧
    ensure_seed_data (ensure_seed_data ([] : Store)) = ensure_seed_data ([] : Store) :=
  ⟨List.cons_ne_nil _ _, List.cons_ne_nil _ _, List.cons_ne_nil _ _,
   c5_seed_idempotent.1 (ensure_seed_data []) (List.cons_ne_nil _ _)
     (List.cons_ne_nil _ _) (List.cons_ne_nil _ _)⟩

/-- Claim C6: on a store whose packages (resp. testimonials) collection is
missing or empty, GET /api/packages returns packages=[] and
GET /api/testimonials returns testimonials=[], as successes. -/
theorem c6_empty_collections_give_empty_lists :
    (∀ s : Store,
        lookupColl s "coachingpackage" = none ∨ lookupColl s "coachingpackage" = some [] →
        get_packages_endpoint s = ApiResult.ok ⟨[]⟩) ∧
    (∀ s : Store,
        lookupColl s "testimonial" = none ∨ lookupColl s "testimonial" = some [] →
        get_testimonials_endpoint s = ApiResult.ok ⟨[]⟩) := by
  constructor
  all_goals intro s h
  all_goals rcases h with h | h
  all_goals simp [get_packages_endpoint, get_testimonials_endpoint,
    get_documents, getColl, h, get_packages, get_testimonials]

/-- Witness for C6 at the empty store. -/
theorem c6_witness :
    lookupColl ([] : Store) "coachingpackage" = none ∧
    get_packages_endpoint ([] : Store) = ApiResult.ok ⟨[]⟩ ∧
    lookupColl ([] : Store) "testimonial" = none ∧
    get_testimonials_endpoint ([] : Store) = ApiResult.ok ⟨[]⟩ :=
  ⟨rfl, c6_empty_collections_give_empty_lists.1 [] (Or.inl rfl), rfl,
   c6_empty_collections_give_empty_lists.2 [] (Or.inl rfl)⟩

/-- Claim C7: no successful response of the three read handlers contains a
record exposing the storage-internal `_id` field, whatever the store read
returned. -/
theorem c7_no_internal_id_exposed :
    (∀ (res : StoreResult (List Doc)) (p : ProfileResponse),
        get_profile res = ApiResult.ok p → lookupField p.profile "_id" = none) ∧
    (∀ (res : StoreResult (List Doc)) (r : PackagesResponse),
        get_packages res = ApiResult.ok r →
        ∀ d ∈ r.packages, lookupField d "_id" = none) ∧
    (∀ (res : StoreResult (List Doc)) (r : TestimonialsResponse),
        get_testimonials res = ApiResult.ok r →
        ∀ d ∈ r.testimonials, lookupField d "_id" = none) := by
  refine ⟨?_, ?_, ?_⟩
  · intro res p h
    cases res with
    | err e => exact ApiResult.noConfusion h
    | ok items =>
        cases items with
        | nil => exact ApiResult.noConfusion h
        | cons item rest =>
            cases h
            exact lookupField_popId item
  · intro res r h
    cases res with
    | err e => exact ApiResult.noConfusion h
    | ok items =>
        cases h
        intro d hd
        obtain ⟨d2, _, rfl⟩ := List.mem_map.mp hd
        exact lookupField_popId d2
  · intro res r h
    cases res with
    | err e => exact ApiResult.noConfusion h
    | ok items =>
        cases h
        intro d hd
        obtain ⟨d2, _, rfl⟩ := List.mem_map.mp hd
        exact lookupField_popId d2

/-- A stored document carrying an internal identifier. -/
def idDoc : Doc := [("_id", Val.str "x"), ("name", Val.str "A")]

/-- Witness for C7 on a document that does carry an `_id` field. -/
theorem c7_witness :
    get_profile (StoreResult.ok [idDoc]) = ApiResult.ok ⟨popId idDoc⟩ ∧
    lookupField (popId idDoc) "_id" = none ∧
    get_packages (StoreResult.ok [idDoc]) = ApiResult.ok ⟨[popId idDoc]⟩ ∧
    get_testimonials (StoreResult.ok [idDoc]) = ApiResult.ok ⟨[popId idDoc]⟩ :=
  ⟨rfl,
   c7_no_internal_id_exposed.1 (StoreResult.ok [idDoc]) ⟨popId idDoc⟩ rfl,
   rfl, rfl⟩

/-- Claim C8: a store error during any of the three read handlers yields a
500 whose detail is the underlying error message (each handler is a total
function, so the process does not crash). -/
theorem c8_store_error_yields_500 (e : String) :
    get_profile (StoreResult.err e) = ApiResult.httpError 500 e ∧
    get_packages (StoreResult.err e) = ApiResult.httpError 500 e ∧
    get_testimonials (StoreResult.err e) = ApiResult.httpError 500 e :=
  ⟨rfl, rfl, rfl⟩

/-- Witness for C8 at a concrete error message. -/
theorem c8_witness :
    get_profile (StoreResult.err "connection reset") = ApiResult.httpError 500 "connection reset" ∧
    get_packages (StoreResult.err "connection reset") = ApiResult.httpError 500 "connection reset" ∧
    get_testimonials (StoreResult.err "connection reset") = ApiResult.httpError 500 "connection reset" :=
  c8_store_error_yields_500 "connection reset"

/-- Claim C9 counterexample: against a fresh empty store, a store error on
the second write of the seeding run (the first package insert) is
swallowed by startup_event, yet the store is NOT left as it was — the
profile document inserted before the failure remains.  So "the store's
contents are left as they were" fails for errors during seeding. -/
theorem c9_counterexample_partial_seed_remains :
    startup_event (some 1) (some ([] : Store))
      = some [("coachprofile", [profileSeedDoc])] ∧
    ([("coachprofile", [profileSeedDoc])] : Store) ≠ ([] : Store) :=
  ⟨rfl, List.cons_ne_nil _ _⟩

/-- Claim C9 (amended): startup never propagates a failure — an unavailable
store is skipped untouched, and whatever write fails, startup still
completes with an available store so the process keeps serving; and when
no failure occurs, seeding runs exactly as ensure_seed_data. -/
theorem c9_startup_swallows_failures :
    (∀ failAt : Option Nat, startup_event failAt none = none) ∧
    (∀ (failAt : Option Nat) (s : Store),
        (startup_event failAt (some s)).isSome = true) ∧
    (∀ s : Store, startup_event none (some s) = some (ensure_seed_data s)) := by
  refine ⟨fun _ => rfl, ?_, ?_⟩
  · intro failAt s
    cases h : ensure_seed_data_fallible failAt s with
    | ok s2 => simp [startup_event, h]
    | error p => cases p with | mk e s2 => simp [startup_event, h]
  · intro s
    simp [startup_event, ensure_seed_data_fallible_none s]

/-- Claim C10: BookingRequest validation ignores any field outside the
declared schema (prepending an unrecognized field never changes the
outcome), and a validated request is persisted with exactly the eight
declared field names — extra payload fields are never stored. -/
theorem c10_extra_fields_ignored_not_stored :
    (∀ (emailOk : String → Bool) (k : String) (v : Val) (payload : Doc),
        k ∉ bookingFieldNames →
        validate_booking emailOk ((k, v) :: payload) = validate_booking emailOk payload) ∧
    (∀ (emailOk : String → Bool) (payload : Doc) (s : Store) (req : BookingRequest),
        validate_booking emailOk payload = Except.ok req →
        (create_booking_endpoint emailOk payload s).1
            = ApiResult.ok ⟨true, bookingAckMessage⟩ ∧
        getColl (create_booking_endpoint emailOk payload s).2 "bookingrequest"
            = getColl s "bookingrequest" ++ [bookingToDoc req] ∧
        (bookingToDoc req).map Prod.fst = bookingFieldNames) := by
  constructor
  · intro emailOk k v payload h
    simp only [bookingFieldNames, List.mem_cons, List.not_mem_nil, or_false,
      not_or] at h
    obtain ⟨h1, h2, h3, h4, h5, h6, h7, h8⟩ := h
    simp only [validate_booking, reqStr, getStrField, optStr,
      lookupField_cons_ne payload k v h1,
      lookupField_cons_ne payload k v h2,
      lookupField_cons_ne payload k v h3,
      lookupField_cons_ne payload k v h4,
      lookupField_cons_ne payload k v h5,
      lookupField_cons_ne payload k v h6,
      lookupField_cons_ne payload k v h7,
      lookupField_cons_ne payload k v h8]
  · intro emailOk payload s req h
    rw [create_booking_endpoint_ok emailOk payload s req h]
    exact ⟨rfl, getColl_create_self s _ _, rfl⟩

/-- Witness for C10: an unrecognized favorite_color field neither blocks
validation nor reaches the stored record. -/
theorem c10_witness :
    ("favorite_color" ∉ bookingFieldNames) ∧
    validate_booking simpleEmailCheck (("favorite_color", Val.str "red") :: jonPayload)
      = validate_booking simpleEmailCheck jonPayload ∧
    validate_booking simpleEmailCheck jonPayload = Except.ok jonBooking ∧
    (bookingToDoc jonBooking).map Prod.fst = bookingFieldNames :=
  ⟨by decide,
   c10_extra_fields_ignored_not_stored.1 simpleEmailCheck "favorite_color"
     (Val.str "red") jonPayload (by decide),
   rfl,
   (c10_extra_fields_ignored_not_stored.2 simpleEmailCheck jonPayload []
     jonBooking rfl).2.2⟩
